import Mathlib

/-!
# Verification of the NAT network-service-endpoint core

Shallow embedding of the repository's configuration model and validator
(src/pkg/config), the NAT chain stages (src/internal/nat), the dataplane
NAT binding call surface (src/pkg/vpp/nat.go), and the connection-metadata
helpers (ExtractInterfaceIndex / VerifyInterfaceMapping), together with
proofs of the behavioural properties stated in the design document.

Go conventions mapped to Lean:
* Go pointers that are tested against nil (`*PortRange`, `*NATTimeouts`,
  nil slices / maps) become `Option`.
* Go `error` results become `Option` of an error type (`none` = nil error);
  functions returning `(T, error)` become products.
* Machine integers (`uint16`, `uint32`) become `Nat`; the code under
  verification only compares and copies them, so no wrap-around arises,
  and where a width bound matters (the `%d` scan) it is made explicit.
* The external collaborators (the next chain stage, the `ifindex` metadata
  exchange, the VPP control-plane reply codes) are oracles supplied in an
  environment record; the stage functions also emit an event trace
  recording which collaborator calls they made, in order.
-/

namespace NatNse

/-! ## Configuration data model (src/pkg/config/config.go) -/

/-- PortRange from config.go: SNAT port pool bounds (`uint16` fields). -/
structure PortRange where
  start : Nat
  «end» : Nat
deriving DecidableEq, Repr

/-- SNATRule from config.go: one allowed source network in CIDR form. -/
structure SNATRule where
  srcNet : String
deriving DecidableEq, Repr

/-- DNATRule from config.go: one static external→internal mapping. -/
structure DNATRule where
  externalIP : String
  externalPort : Nat
  internalIP : String
  internalPort : Nat
  protocol : String
deriving DecidableEq, Repr

/-- NATTimeouts from config.go: session timeout parameters in seconds
(`uint32` fields; the Go zero value denotes an absent field). -/
structure NATTimeouts where
  tcpEstablished : Nat
  tcpTransitory : Nat
  udp : Nat
  icmp : Nat
deriving DecidableEq, Repr

/-- NATConfig from config.go.  `labels` and `dnatRules` are nil-testable
in Go (map / slice compared against nil in applyDefaults), so they are
`Option` here; `portRange` and `timeouts` are pointers in Go. -/
structure NATConfig where
  name : String
  labels : Option (List (String × String))
  natIP : String
  portRange : Option PortRange
  snatRules : List SNATRule
  dnatRules : Option (List DNATRule)
  timeouts : Option NATTimeouts
deriving DecidableEq, Repr

/-- DefaultPortRange from config.go. -/
def DefaultPortRange : PortRange := { start := 1024, «end» := 65535 }

/-- DefaultNATTimeouts from config.go (VPP NAT44 defaults). -/
def DefaultNATTimeouts : NATTimeouts :=
  { tcpEstablished := 7440, tcpTransitory := 240, udp := 300, icmp := 60 }

/-! ## IP address and CIDR parsing

`validateIPAddress` in validate.go accepts exactly the strings on which Go's
`net.ParseIP` succeeds with a non-nil `To4()`, i.e. IPv4 dotted-quad
addresses (Go also maps a handful of IPv4-in-IPv6 textual forms through
`To4`; the configuration format under test is dotted-quad only and those
forms are not modelled).  Per Go's parser: four fields split on a dot,
each field 1–3 decimal digits, no leading zero on a multi-digit field,
value at most 255. -/

/-- Decimal value of a digit string. -/
def digitsToNat (cs : List Char) : Nat :=
  cs.foldl (fun a c => a * 10 + (c.toNat - 48)) 0

/-- Split a character list at every occurrence of a separator character
(the single-character case of Go's `strings.Split` as used by the IP and
CIDR parsers). -/
def splitOnChar (sep : Char) : List Char → List (List Char)
  | [] => [[]]
  | c :: rest =>
      let r := splitOnChar sep rest
      if c = sep then [] :: r
      else
        match r with
        | [] => [[c]]
        | g :: gs => (c :: g) :: gs

/-- One dotted-quad field per Go's IPv4 parser: 1–3 decimal digits, no
leading zero on a multi-digit field, value at most 255. -/
def isIPv4Field (cs : List Char) : Bool :=
  (decide (cs ≠ [])) && cs.all Char.isDigit && decide (cs.length ≤ 3) &&
  (decide (cs.length = 1) || decide (cs.head? ≠ some '0')) &&
  decide (digitsToNat cs ≤ 255)

/-- Go `net.ParseIP(s) != nil && ip.To4() != nil` for dotted-quad input. -/
def isIPv4 (s : String) : Bool :=
  match splitOnChar '.' s.data with
  | [a, b, c, d] => isIPv4Field a && isIPv4Field b && isIPv4Field c && isIPv4Field d
  | _ => false

/-- Go `net.ParseCIDR` success on IPv4 input: address part before the first
slash is a dotted quad, mask part is a non-empty digit string of value at
most 32 (leading zeros in the mask are accepted by Go's `dtoi`). -/
def isCIDRv4 (s : String) : Bool :=
  match splitOnChar '/' s.data with
  | [addr, mask] =>
      isIPv4 ⟨addr⟩ && (decide (mask ≠ [])) && mask.all Char.isDigit &&
      decide (digitsToNat mask ≤ 32)
  | _ => false

/-! ## Validation (src/pkg/config/validate.go)

One error constructor per `errors.New` / `fmt.Errorf` site in validate.go;
`VErr.message` renders the Go error text (numeric arguments via
`toString`). -/

/-- Validation errors, one constructor per error site in validate.go. -/
inductive VErr
  | nilConfig
  | nameRequired
  | natIPRequired
  | snatRulesAtLeastOne
  | invalidIPAddress (field : String) (value : String)
  | portStartOutOfRange (n : Nat)
  | portEndOutOfRange (n : Nat)
  | portStartGtEnd (s e : Nat)
  | snatRulesEmpty
  | snatSrcNetRequired (index : Nat)
  | snatInvalidCIDR (index : Nat) (value : String)
  | dnatInvalidPort (index : Nat) (field : String) (n : Nat)
  | dnatInvalidProtocol (index : Nat) (value : String)
  | dnatDuplicate (index : Nat) (externalIP : String) (externalPort : Nat) (protocol : String)
  | timeoutTcpEstablished (n : Nat)
  | timeoutTcpTransitory (n : Nat)
  | timeoutUdp (n : Nat)
  | timeoutIcmp (n : Nat)
deriving DecidableEq, Repr

/-- The Go error message for each validation error. -/
def VErr.message : VErr → String
  | .nilConfig => "NAT config cannot be nil"
  | .nameRequired => "field 'name' is required"
  | .natIPRequired => "field 'natIP' is required"
  | .snatRulesAtLeastOne => "field 'snatRules' must contain at least one rule"
  | .invalidIPAddress f v => "field '" ++ f ++ "' has invalid IP address format: " ++ v
  | .portStartOutOfRange n => "portRange.start must be between 1 and 65535, got: " ++ toString n
  | .portEndOutOfRange n => "portRange.end must be between 1 and 65535, got: " ++ toString n
  | .portStartGtEnd s e =>
      "portRange.start (" ++ toString s ++ ") must be <= portRange.end (" ++ toString e ++ ")"
  | .snatRulesEmpty => "snatRules cannot be empty"
  | .snatSrcNetRequired i => "snatRules[" ++ toString i ++ "].srcNet is required"
  | .snatInvalidCIDR i v =>
      "snatRules[" ++ toString i ++ "].srcNet has invalid CIDR format: " ++ v
  | .dnatInvalidPort i f n =>
      "dnatRules[" ++ toString i ++ "]." ++ f ++ " must be between 1 and 65535, got: " ++ toString n
  | .dnatInvalidProtocol i v =>
      "dnatRules[" ++ toString i ++ "].protocol must be tcp or udp, got: " ++ v
  | .dnatDuplicate i ip port proto =>
      "dnatRules[" ++ toString i ++ "]: duplicate DNAT mapping for " ++ ip ++ ":" ++
        toString port ++ " (protocol: " ++ proto ++ ")"
  | .timeoutTcpEstablished n =>
      "timeouts.tcpEstablished should be >= 60 seconds, got: " ++ toString n
  | .timeoutTcpTransitory n =>
      "timeouts.tcpTransitory should be >= 30 seconds, got: " ++ toString n
  | .timeoutUdp n => "timeouts.udp should be >= 30 seconds, got: " ++ toString n
  | .timeoutIcmp n => "timeouts.icmp should be >= 10 seconds, got: " ++ toString n

/-- validateRequiredFields from validate.go. -/
def validateRequiredFields (cfg : NATConfig) : Option VErr :=
  if cfg.name = "" then some .nameRequired
  else if cfg.natIP = "" then some .natIPRequired
  else if cfg.snatRules.length = 0 then some .snatRulesAtLeastOne
  else none

/-- validateIPAddress from validate.go (the two Go error sites — parse
failure and non-IPv4 — are merged into one constructor; both reject). -/
def validateIPAddress (ipStr : String) (fieldName : String) : Option VErr :=
  if isIPv4 ipStr then none else some (.invalidIPAddress fieldName ipStr)

/-- validatePortRange from validate.go. -/
def validatePortRange (pr : Option PortRange) : Option VErr :=
  match pr with
  | none => none
  | some pr =>
      if pr.start = 0 ∨ pr.start > 65535 then some (.portStartOutOfRange pr.start)
      else if pr.«end» = 0 ∨ pr.«end» > 65535 then some (.portEndOutOfRange pr.«end»)
      else if pr.start > pr.«end» then some (.portStartGtEnd pr.start pr.«end»)
      else none

/-- validateSNATRule from validate.go. -/
def validateSNATRule (rule : SNATRule) (index : Nat) : Option VErr :=
  if rule.srcNet = "" then some (.snatSrcNetRequired index)
  else if isCIDRv4 rule.srcNet then none
  else some (.snatInvalidCIDR index rule.srcNet)

/-- The indexed loop inside validateSNATRules. -/
def validateSNATRulesAux : List SNATRule → Nat → Option VErr
  | [], _ => none
  | r :: rest, i =>
      match validateSNATRule r i with
      | some e => some e
      | none => validateSNATRulesAux rest (i + 1)

/-- validateSNATRules from validate.go. -/
def validateSNATRules (rules : List SNATRule) : Option VErr :=
  if rules.length = 0 then some .snatRulesEmpty
  else validateSNATRulesAux rules 0

/-- validateDNATRule from validate.go. -/
def validateDNATRule (rule : DNATRule) (index : Nat) : Option VErr :=
  match validateIPAddress rule.externalIP ("dnatRules[" ++ toString index ++ "].externalIP") with
  | some e => some e
  | none =>
  match validateIPAddress rule.internalIP ("dnatRules[" ++ toString index ++ "].internalIP") with
  | some e => some e
  | none =>
  if rule.externalPort = 0 ∨ rule.externalPort > 65535 then
    some (.dnatInvalidPort index "externalPort" rule.externalPort)
  else if rule.internalPort = 0 ∨ rule.internalPort > 65535 then
    some (.dnatInvalidPort index "internalPort" rule.internalPort)
  else if rule.protocol.toLower ≠ "tcp" ∧ rule.protocol.toLower ≠ "udp" then
    some (.dnatInvalidProtocol index rule.protocol)
  else none

/-- The `%s:%s:%d` conflict key built in validateDNATRules. -/
def endpointKey (r : DNATRule) : String :=
  r.protocol.toLower ++ ":" ++ r.externalIP ++ ":" ++ toString r.externalPort

/-- The loop inside validateDNATRules: per-rule validation plus conflict
detection against the set of endpoint keys seen so far. -/
def validateDNATRulesAux : List DNATRule → Nat → List String → Option VErr
  | [], _, _ => none
  | r :: rest, i, seen =>
      match validateDNATRule r i with
      | some e => some e
      | none =>
          if endpointKey r ∈ seen then
            some (.dnatDuplicate i r.externalIP r.externalPort r.protocol)
          else validateDNATRulesAux rest (i + 1) (endpointKey r :: seen)

/-- validateDNATRules from validate.go. -/
def validateDNATRules (rules : List DNATRule) : Option VErr :=
  validateDNATRulesAux rules 0 []

/-- validateTimeouts from validate.go.  Note the Go guards: each field is
checked only when it is strictly positive (a zero field, the Go zero
value for an absent entry, passes). -/
def validateTimeouts (timeouts : Option NATTimeouts) : Option VErr :=
  match timeouts with
  | none => none
  | some t =>
      if t.tcpEstablished > 0 ∧ t.tcpEstablished < 60 then
        some (.timeoutTcpEstablished t.tcpEstablished)
      else if t.tcpTransitory > 0 ∧ t.tcpTransitory < 30 then
        some (.timeoutTcpTransitory t.tcpTransitory)
      else if t.udp > 0 ∧ t.udp < 30 then some (.timeoutUdp t.udp)
      else if t.icmp > 0 ∧ t.icmp < 10 then some (.timeoutIcmp t.icmp)
      else none

/-- ValidateNATConfig from validate.go: nil check, then the fixed
early-return sequence required fields → natIP format → port range →
SNAT rules → DNAT rules (only when present) → timeouts (only when
present). -/
def ValidateNATConfig (cfg : Option NATConfig) : Option VErr :=
  match cfg with
  | none => some .nilConfig
  | some cfg =>
  match validateRequiredFields cfg with
  | some e => some e
  | none =>
  match validateIPAddress cfg.natIP "natIP" with
  | some e => some e
  | none =>
  match validatePortRange cfg.portRange with
  | some e => some e
  | none =>
  match validateSNATRules cfg.snatRules with
  | some e => some e
  | none =>
  match (if (cfg.dnatRules.getD []).length > 0
         then validateDNATRules (cfg.dnatRules.getD []) else none) with
  | some e => some e
  | none =>
  if cfg.timeouts.isSome then validateTimeouts cfg.timeouts else none

/-! ## Defaulting (applyDefaults in the config loading file) -/

/-- applyDefaults: fills the absent (`nil` / zero-valued) optional fields
with the documented defaults and initialises absent collections; explicit
non-zero values are left untouched.  `LoadNATConfigFromFile` is
YAML-unmarshal followed by this function. -/
def applyDefaults (cfg : NATConfig) : NATConfig :=
  let pr : PortRange :=
    match cfg.portRange with
    | none => DefaultPortRange
    | some pr =>
        { start := if pr.start = 0 then 1024 else pr.start
          «end» := if pr.«end» = 0 then 65535 else pr.«end» }
  let ts : NATTimeouts :=
    match cfg.timeouts with
    | none => DefaultNATTimeouts
    | some t =>
        { tcpEstablished :=
            if t.tcpEstablished = 0 then DefaultNATTimeouts.tcpEstablished else t.tcpEstablished
          tcpTransitory :=
            if t.tcpTransitory = 0 then DefaultNATTimeouts.tcpTransitory else t.tcpTransitory
          udp := if t.udp = 0 then DefaultNATTimeouts.udp else t.udp
          icmp := if t.icmp = 0 then DefaultNATTimeouts.icmp else t.icmp }
  { cfg with
      portRange := some pr
      timeouts := some ts
      labels := some (cfg.labels.getD [])
      dnatRules := some (cfg.dnatRules.getD []) }

/-! ## Interface pairing check (VerifyInterfaceMapping) -/

/-- VerifyInterfaceMapping from the nat helpers file: both indexes must be
non-zero and distinct.  Returns the Go error message, or `none`. -/
def VerifyInterfaceMapping (serverSideIfIndex clientSideIfIndex : Nat) : Option String :=
  if serverSideIfIndex = 0 then some "server side interface index cannot be 0"
  else if clientSideIfIndex = 0 then some "client side interface index cannot be 0"
  else if serverSideIfIndex = clientSideIfIndex then
    some ("server side and client side interfaces must have different indexes, got: " ++
      toString serverSideIfIndex)
  else none

/-! ## Errors produced by the chain stages (github.com/pkg/errors model)

`GoErr.msg` is `errors.New` / `fmt.Errorf`; `GoErr.wrap m cause` is
`errors.Wrapf(cause, m)`, whose rendered message is `m ++ ": " ++ cause`. -/

/-- Chain-stage error values: a leaf message or a wrap around a cause. -/
inductive GoErr
  | msg (s : String)
  | wrap (s : String) (cause : GoErr)
deriving DecidableEq, Repr

/-- The rendered Go error string (pkg/errors formats a wrap as
`message: cause`). -/
def GoErr.message : GoErr → String
  | .msg s => s
  | .wrap s c => s ++ ": " ++ c.message

/-! ## Connections and metadata (networkservice.Connection surface used) -/

/-- The mechanism attached to a connection; `parameters` is a Go
`map[string]string`, nil-testable, modelled as an association list. -/
structure Mechanism where
  parameters : Option (List (String × String))
deriving DecidableEq, Repr

/-- The slice of `networkservice.Connection` this core reads: the id and
the mechanism.  A nil `*Connection` is `Option Connection` at use sites. -/
structure Connection where
  id : String
  mechanism : Option Mechanism
deriving DecidableEq, Repr

/-- Go map lookup `params[k]` returning the `(value, ok)` pair as Option. -/
def lookupParam (ps : List (String × String)) (k : String) : Option String :=
  (ps.find? (fun p => p.1 = k)).map Prod.snd

/-! ## The `fmt.Sscanf(s, "%d", &u32)` scan used by ExtractInterfaceIndex

Go's scanner skips leading blanks, then requires a non-empty run of
decimal digits (an unsigned verb accepts no sign), converts it with a
32-bit overflow check, and ignores whatever trails the digit run —
`Sscanf` does not require the whole input to be consumed. -/

/-- `fmt.Sscanf(s, "%d", &u)` for `u : uint32`: `some value` on success. -/
def sscanfUint32 (s : String) : Option Nat :=
  let cs := s.data.dropWhile (fun c => c = ' ' ∨ c = '\t')
  let digits := cs.takeWhile Char.isDigit
  if digits.isEmpty then none
  else if digitsToNat digits < 2 ^ 32 then some (digitsToNat digits)
  else none

/-- ExtractInterfaceIndex from the nat helpers file: walks
connection → mechanism → parameters → `"vpp_sw_if_index"` → scan,
returning `(0, error)` at the first missing link, else the parsed index.
Total by construction (the Go code has no panic site on this path). -/
def ExtractInterfaceIndex (conn : Option Connection) : Nat × Option GoErr :=
  match conn with
  | none => (0, some (.msg "connection is nil"))
  | some c =>
  match c.mechanism with
  | none => (0, some (.msg "connection mechanism is nil"))
  | some m =>
  match m.parameters with
  | none => (0, some (.msg "mechanism parameters are nil"))
  | some params =>
  match lookupParam params "vpp_sw_if_index" with
  | none => (0, some (.msg "vpp_sw_if_index not found in mechanism parameters"))
  | some swIfIndexStr =>
  match sscanfUint32 swIfIndexStr with
  | none =>
      (0, some (.wrap ("failed to parse vpp_sw_if_index: " ++ swIfIndexStr) (.msg "scan error")))
  | some v => (v, none)

/-! ## Dataplane NAT binding (src/pkg/vpp/nat.go)

Each operation issues one control-plane request and turns a non-zero
reply code into an error.  The engine's reply codes are environmental:
`VppEnv` maps each call to the `Retval` the engine would return.  (An
`Invoke` transport error and a non-zero retval both surface as errors in
Go; they are collapsed into the non-zero-retval case.) -/

/-- The packet-processing engine's reply codes, per operation. -/
structure VppEnv where
  insideRetval : Nat → Int
  outsideRetval : Nat → Int
  poolRetval : String → Int

/-- ConfigureInsideInterface from nat.go: mark an interface NAT-inside. -/
def ConfigureInsideInterface (env : VppEnv) (swIfIndex : Nat) : Option GoErr :=
  if env.insideRetval swIfIndex ≠ 0 then
    some (.msg ("VPP returned error code when configuring inside interface " ++ toString swIfIndex))
  else none

/-- ConfigureOutsideInterface from nat.go: mark an interface NAT-outside. -/
def ConfigureOutsideInterface (env : VppEnv) (swIfIndex : Nat) : Option GoErr :=
  if env.outsideRetval swIfIndex ≠ 0 then
    some (.msg ("VPP returned error code when configuring outside interface " ++ toString swIfIndex))
  else none

/-- AddNATAddressPool from nat.go: parse/IPv4-check the address first
(rejecting before any control-plane call), then add it to the pool. -/
def AddNATAddressPool (env : VppEnv) (natIP : String) : Option GoErr :=
  if !isIPv4 natIP then some (.msg ("invalid IP address format: " ++ natIP))
  else if env.poolRetval natIP ≠ 0 then
    some (.msg ("VPP returned error code when adding NAT address pool " ++ natIP))
  else none

/-- ConfigurePortRange from nat.go: validates its arguments and, in the
current source, makes no control-plane call (the CLI call is a TODO), so
its outcome is a pure function of the ports. -/
def ConfigurePortRange (portStart portEnd : Nat) : Option GoErr :=
  if portStart = 0 ∨ portStart > 65535 then
    some (.msg ("invalid portStart: " ++ toString portStart))
  else if portEnd = 0 ∨ portEnd > 65535 then
    some (.msg ("invalid portEnd: " ++ toString portEnd))
  else if portStart > portEnd then
    some (.msg ("portStart (" ++ toString portStart ++ ") must be <= portEnd (" ++
      toString portEnd ++ ")"))
  else none

/-! ## The Configured-Connection Set (genericsync.Map[string, bool])

Modelled as a duplicate-free id list with map semantics: `Store` inserts
(overwriting, hence a no-op when present since the stored value is always
`true`), `LoadAndDelete` removes the key entirely. -/

/-- The Configured-Connection Set: the keys of the stage's map. -/
abbrev ConnSet := List String

/-- `configuredConns.Store(id, true)`. -/
def ConnSet.store (s : ConnSet) (id : String) : ConnSet :=
  if id ∈ s then s else id :: s

/-- `configuredConns.LoadAndDelete(id)`: the key is removed (map delete). -/
def ConnSet.del (s : ConnSet) (id : String) : ConnSet :=
  s.filter (fun x => x ≠ id)

/-! ## Collaborator-call traces and the chain environment -/

/-- One call to an external collaborator, in program order. -/
inductive Event
  | nextRequest
  | nextClose (id : String)
  | markInside (i : Nat)
  | markOutside (i : Nat)
  | addPool (ip : String)
  | cfgPortRange (s e : Nat)
deriving DecidableEq, Repr

/-- Is this event a dataplane NAT-configuration call? -/
def Event.isNatCall : Event → Bool
  | .markInside _ => true
  | .markOutside _ => true
  | .addPool _ => true
  | .cfgPortRange _ _ => true
  | _ => false

/-- The dataplane NAT-configuration calls within a trace. -/
def natCalls (evs : List Event) : List Event :=
  evs.filter Event.isNatCall

/-- How many Close calls a trace issues for a given connection id. -/
def closeCount (evs : List Event) (id : String) : Nat :=
  (evs.filter (fun e => e = Event.nextClose id)).length

/-- Environment for one chain-stage invocation: the next stage's results,
the metadata interface-index exchange, which side the dual-role server
variant is on (`metadata.IsClient`), and the engine's reply codes. -/
structure ChainEnv where
  vpp : VppEnv
  nextRequest : Except GoErr Connection
  nextCloseErr : Option GoErr
  ifindexLoad : Option Nat
  isClient : Bool

/-- Result of a stage's Request: the returned value, the stage's
Configured-Connection Set afterwards, and the collaborator calls made. -/
structure ReqOut where
  result : Except GoErr Connection
  conns : ConnSet
  events : List Event
deriving Repr

/-! ## natServer (src/internal/nat/nat_server.go) -/

/-- natServer.Close: `LoadAndDelete` the id, forward the close.  No
dataplane de-configuration call is made. -/
def natServerClose (env : ChainEnv) (conns : ConnSet) (connId : String) :
    Option GoErr × ConnSet × List Event :=
  (env.nextCloseErr, conns.del connId, [Event.nextClose connId])

/-- The error `cleanupOnError` returns: the original error, wrapped with
the cleanup outcome only when the Close itself failed. -/
def cleanupWrapErr (env : ChainEnv) (originalErr : GoErr) : GoErr :=
  match env.nextCloseErr with
  | some closeErr => .wrap ("连接清理失败: " ++ closeErr.message) originalErr
  | none => originalErr

/-- natServer.cleanupOnError: one synchronous Close on the already-open
connection (under the postponed context), then the original error,
wrapped with the cleanup outcome if the Close failed. -/
def cleanupOnError (env : ChainEnv) (conns : ConnSet) (connId : String)
    (originalErr : GoErr) : GoErr × ConnSet × List Event :=
  match natServerClose env conns connId with
  | (some closeErr, conns2, evs) =>
      (.wrap ("连接清理失败: " ++ closeErr.message) originalErr, conns2, evs)
  | (none, conns2, evs) => (originalErr, conns2, evs)

/-- The configuration part of natServer.Request (after the downstream
chain returned `conn` and the Configured-Connection Set miss): extract
this side's interface index, mark inside (server side, non-zero index) or
outside (client side, non-zero index), and on the server side add the
address pool and attempt the non-fatal port-range call; finally store the
id.  Any fatal error goes through cleanupOnError. -/
def natServerConfigure (env : ChainEnv) (cfg : NATConfig) (conns : ConnSet)
    (conn : Connection) : ReqOut :=
  match ExtractInterfaceIndex (some conn) with
  | (_, some e) =>
      let orig := GoErr.wrap
        (if env.isClient then "failed to extract client side interface index"
         else "failed to extract server side interface index") e
      let r := cleanupOnError env conns conn.id orig
      ⟨.error r.1, r.2.1, r.2.2⟩
  | (idx, none) =>
      if env.isClient then
        -- client side: outside interface only (zero index skips the call)
        if idx ≠ 0 then
          match ConfigureOutsideInterface env.vpp idx with
          | some e =>
              let orig := GoErr.wrap ("failed to configure outside interface " ++ toString idx) e
              let r := cleanupOnError env conns conn.id orig
              ⟨.error r.1, r.2.1, Event.markOutside idx :: r.2.2⟩
          | none => ⟨.ok conn, conns.store conn.id, [Event.markOutside idx]⟩
        else ⟨.ok conn, conns.store conn.id, []⟩
      else
        -- server side: inside interface (zero index skips the call)
        match (if idx ≠ 0 then (ConfigureInsideInterface env.vpp idx, [Event.markInside idx])
               else ((none : Option GoErr), ([] : List Event))) with
        | (some e, evs) =>
            let orig := GoErr.wrap ("failed to configure inside interface " ++ toString idx) e
            let r := cleanupOnError env conns conn.id orig
            ⟨.error r.1, r.2.1, evs ++ r.2.2⟩
        | (none, evs) =>
            match AddNATAddressPool env.vpp cfg.natIP with
            | some e =>
                let orig := GoErr.wrap ("failed to add NAT address pool " ++ cfg.natIP) e
                let r := cleanupOnError env conns conn.id orig
                ⟨.error r.1, r.2.1, evs ++ [Event.addPool cfg.natIP] ++ r.2.2⟩
            | none =>
                match cfg.portRange with
                | some pr =>
                    -- port-range failure is logged and ignored (non-fatal)
                    let _prErr := ConfigurePortRange pr.start pr.«end»
                    ⟨.ok conn, conns.store conn.id,
                      evs ++ [Event.addPool cfg.natIP, Event.cfgPortRange pr.start pr.«end»]⟩
                | none =>
                    ⟨.ok conn, conns.store conn.id, evs ++ [Event.addPool cfg.natIP]⟩

/-- natServer.Request: forward downstream first; on a hit in the
Configured-Connection Set short-circuit with the connection; otherwise
run the configuration steps. -/
def natServerRequest (env : ChainEnv) (cfg : NATConfig) (conns : ConnSet) : ReqOut :=
  match env.nextRequest with
  | .error e => ⟨.error e, conns, [Event.nextRequest]⟩
  | .ok conn =>
      if conn.id ∈ conns then ⟨.ok conn, conns, [Event.nextRequest]⟩
      else
        let r := natServerConfigure env cfg conns conn
        ⟨r.result, r.conns, Event.nextRequest :: r.events⟩

/-! ## natClient (src/internal/nat/nat_client.go) -/

/-- natClient.Request: on a hit in the Configured-Connection Set, skip
configuration and forward; otherwise load the client-side index from the
metadata exchange, mark outside, add the pool (each failure returned
directly — the downstream chain has not been invoked yet, so no Close is
issued), store the id, and only then forward downstream. -/
def natClientRequest (env : ChainEnv) (cfg : NATConfig) (conns : ConnSet)
    (requestConn : Option Connection) : ReqOut :=
  let connID := (requestConn.map Connection.id).getD ""
  if connID ∈ conns then
    ⟨env.nextRequest, conns, [Event.nextRequest]⟩
  else
    match env.ifindexLoad with
    | none =>
        ⟨.error (.msg "failed to load client side interface index from metadata"), conns, []⟩
    | some idx =>
    match ConfigureOutsideInterface env.vpp idx with
    | some e =>
        ⟨.error (.wrap ("failed to configure NAT outside interface " ++ toString idx) e),
          conns, [Event.markOutside idx]⟩
    | none =>
    match AddNATAddressPool env.vpp cfg.natIP with
    | some e =>
        ⟨.error (.wrap ("failed to add NAT address pool " ++ cfg.natIP) e),
          conns, [Event.markOutside idx, Event.addPool cfg.natIP]⟩
    | none =>
        ⟨env.nextRequest, conns.store connID,
          [Event.markOutside idx, Event.addPool cfg.natIP, Event.nextRequest]⟩

/-- natClient.Close: `LoadAndDelete` the id, forward the close.  No
dataplane de-configuration call is made. -/
def natClientClose (env : ChainEnv) (conns : ConnSet) (connId : String) :
    Option GoErr × ConnSet × List Event :=
  (env.nextCloseErr, conns.del connId, [Event.nextClose connId])

/-! ## Helper lemmas about the validator -/

/-- A `none` result of the DNAT loop means every rule's endpoint key is
fresh: the keys are pairwise distinct and none was already seen. -/
theorem validateDNATRulesAux_none (rules : List DNATRule) :
    ∀ i seen, validateDNATRulesAux rules i seen = none →
      (rules.map endpointKey).Nodup ∧ ∀ k ∈ rules.map endpointKey, k ∉ seen := by
  induction rules with
  | nil => intro i seen _; simp
  | cons r rest ih =>
      intro i seen h
      unfold validateDNATRulesAux at h
      cases hv : validateDNATRule r i with
      | some e => rw [hv] at h; exact absurd h (by simp)
      | none =>
          rw [hv] at h
          by_cases hm : endpointKey r ∈ seen
          · rw [if_pos hm] at h; exact absurd h (by simp)
          · rw [if_neg hm] at h
            obtain ⟨hnd, hnot⟩ := ih (i + 1) (endpointKey r :: seen) h
            refine ⟨?_, ?_⟩
            · simp only [List.map_cons, List.nodup_cons]
              refine ⟨fun hk => ?_, hnd⟩
              exact (hnot _ hk) (List.mem_cons_self _ _)
            · intro k hk
              simp only [List.map_cons, List.mem_cons] at hk
              rcases hk with rfl | hk
              · exact hm
              · exact fun hks => (hnot _ hk) (List.mem_cons_of_mem _ hks)

/-- A config that validates cleanly passes each individual check. -/
theorem validateNATConfig_none_parts (cfg : NATConfig)
    (h : ValidateNATConfig (some cfg) = none) :
    validateRequiredFields cfg = none ∧
    validateIPAddress cfg.natIP "natIP" = none ∧
    validatePortRange cfg.portRange = none ∧
    validateSNATRules cfg.snatRules = none ∧
    ((cfg.dnatRules.getD []).length > 0 → validateDNATRules (cfg.dnatRules.getD []) = none) ∧
    (cfg.timeouts.isSome → validateTimeouts cfg.timeouts = none) := by
  simp only [ValidateNATConfig] at h
  cases h1 : validateRequiredFields cfg with
  | some e => rw [h1] at h; exact absurd h (by simp)
  | none =>
  rw [h1] at h
  cases h2 : validateIPAddress cfg.natIP "natIP" with
  | some e => rw [h2] at h; exact absurd h (by simp)
  | none =>
  rw [h2] at h
  cases h3 : validatePortRange cfg.portRange with
  | some e => rw [h3] at h; exact absurd h (by simp)
  | none =>
  rw [h3] at h
  cases h4 : validateSNATRules cfg.snatRules with
  | some e => rw [h4] at h; exact absurd h (by simp)
  | none =>
  rw [h4] at h
  by_cases h5c : (cfg.dnatRules.getD []).length > 0
  · rw [if_pos h5c] at h
    cases h5 : validateDNATRules (cfg.dnatRules.getD []) with
    | some e => rw [h5] at h; exact absurd h (by simp)
    | none =>
    rw [h5] at h
    by_cases h6c : cfg.timeouts.isSome
    · rw [if_pos h6c] at h
      exact ⟨rfl, rfl, rfl, rfl, fun _ => rfl, fun _ => h⟩
    · exact ⟨rfl, rfl, rfl, rfl, fun _ => rfl, fun hc => absurd hc h6c⟩
  · rw [if_neg h5c] at h
    by_cases h6c : cfg.timeouts.isSome
    · rw [if_pos h6c] at h
      exact ⟨rfl, rfl, rfl, rfl, fun hc => absurd hc h5c, fun _ => h⟩
    · exact ⟨rfl, rfl, rfl, rfl, fun hc => absurd hc h5c, fun hc => absurd hc h6c⟩

/-- A clean port-range check implies the bounds are ordered. -/
theorem validatePortRange_none_le (pr : PortRange)
    (h : validatePortRange (some pr) = none) : pr.start ≤ pr.«end» := by
  simp only [validatePortRange] at h
  by_cases h1 : pr.start = 0 ∨ pr.start > 65535
  · rw [if_pos h1] at h; exact absurd h (by simp)
  · rw [if_neg h1] at h
    by_cases h2 : pr.«end» = 0 ∨ pr.«end» > 65535
    · rw [if_pos h2] at h; exact absurd h (by simp)
    · rw [if_neg h2] at h
      by_cases h3 : pr.start > pr.«end»
      · rw [if_pos h3] at h; exact absurd h (by simp)
      · omega

/-! ## C4 — pairing invariant -/

/-- C4: VerifyInterfaceMapping(a, b) succeeds exactly when a and b are
distinct non-zero values; it errors when a = 0, when b = 0, or when
a = b. -/
theorem verifyInterfaceMapping_pairing (a b : Nat) :
    VerifyInterfaceMapping a b = none ↔ a ≠ 0 ∧ b ≠ 0 ∧ a ≠ b := by
  unfold VerifyInterfaceMapping
  split_ifs with h1 h2 h3 <;> simp_all

/-! ## C5 — validation completeness and first-error order -/

/-- C5: ValidateNATConfig rejects a config missing name, natIP, or with
empty snatRules with the error naming that field; rejects
portRange.start > portRange.end; rejects two DNAT rules sharing the
(protocol, externalIP, externalPort) tuple; and always reports the first
error in the fixed order required fields → address format → port range →
SNAT rules → DNAT rules → timeouts. -/
theorem validateNATConfig_completeness_and_order (cfg : NATConfig) :
    (cfg.name = "" → ValidateNATConfig (some cfg) = some VErr.nameRequired) ∧
    (cfg.name ≠ "" → cfg.natIP = "" → ValidateNATConfig (some cfg) = some VErr.natIPRequired) ∧
    (cfg.name ≠ "" → cfg.natIP ≠ "" → cfg.snatRules = [] →
      ValidateNATConfig (some cfg) = some VErr.snatRulesAtLeastOne) ∧
    (∀ pr : PortRange, cfg.portRange = some pr → pr.start > pr.«end» →
      (ValidateNATConfig (some cfg)).isSome) ∧
    (∀ rules : List DNATRule, cfg.dnatRules = some rules →
      ∀ i j : Fin rules.length, i < j →
        (rules.get i).protocol.toLower = (rules.get j).protocol.toLower →
        (rules.get i).externalIP = (rules.get j).externalIP →
        (rules.get i).externalPort = (rules.get j).externalPort →
        (ValidateNATConfig (some cfg)).isSome) ∧
    (∀ e, validateRequiredFields cfg = some e → ValidateNATConfig (some cfg) = some e) ∧
    (validateRequiredFields cfg = none →
      ∀ e, validateIPAddress cfg.natIP "natIP" = some e →
        ValidateNATConfig (some cfg) = some e) ∧
    (validateRequiredFields cfg = none → validateIPAddress cfg.natIP "natIP" = none →
      ∀ e, validatePortRange cfg.portRange = some e → ValidateNATConfig (some cfg) = some e) ∧
    (validateRequiredFields cfg = none → validateIPAddress cfg.natIP "natIP" = none →
      validatePortRange cfg.portRange = none →
      ∀ e, validateSNATRules cfg.snatRules = some e → ValidateNATConfig (some cfg) = some e) ∧
    (validateRequiredFields cfg = none → validateIPAddress cfg.natIP "natIP" = none →
      validatePortRange cfg.portRange = none → validateSNATRules cfg.snatRules = none →
      (cfg.dnatRules.getD []).length > 0 →
      ∀ e, validateDNATRules (cfg.dnatRules.getD []) = some e →
        ValidateNATConfig (some cfg) = some e) := by
  refine ⟨?_, ?_, ?_, ?_, ?_, ?_, ?_, ?_, ?_, ?_⟩
  · intro h
    simp [ValidateNATConfig, validateRequiredFields, h]
  · intro h1 h2
    simp [ValidateNATConfig, validateRequiredFields, h1, h2]
  · intro h1 h2 h3
    simp [ValidateNATConfig, validateRequiredFields, h1, h2, h3]
  · intro pr hpr hgt
    cases hv : ValidateNATConfig (some cfg) with
    | some e => rfl
    | none =>
        obtain ⟨-, -, h3, -⟩ := validateNATConfig_none_parts cfg hv
        rw [hpr] at h3
        exact absurd (validatePortRange_none_le pr h3) (by omega)
  · intro rules hrules i j hij hproto hip hport
    cases hv : ValidateNATConfig (some cfg) with
    | some e => rfl
    | none =>
        obtain ⟨-, -, -, -, h5, -⟩ := validateNATConfig_none_parts cfg hv
        rw [hrules] at h5
        simp only [Option.getD_some] at h5
        have hlen : rules.length > 0 := lt_of_le_of_lt (Nat.zero_le _) (lt_of_lt_of_le hij (Nat.le_of_lt_succ (Nat.lt_succ_of_lt j.isLt)))
        have hnd := (validateDNATRulesAux_none rules 0 [] (h5 hlen)).1
        have hkey : endpointKey (rules.get i) = endpointKey (rules.get j) := by
          unfold endpointKey
          rw [hproto, hip, hport]
        have hi' : (i : Nat) < (rules.map endpointKey).length := by
          simp only [List.length_map]; exact i.isLt
        have hj' : (j : Nat) < (rules.map endpointKey).length := by
          simp only [List.length_map]; exact j.isLt
        have hmap : (rules.map endpointKey).get ⟨i, hi'⟩ = (rules.map endpointKey).get ⟨j, hj'⟩ := by
          simp only [List.get_eq_getElem, List.getElem_map]
          exact hkey
        have hfin := (List.Nodup.get_inj_iff hnd).mp hmap
        rw [Fin.mk.injEq] at hfin
        exact absurd hfin (Nat.ne_of_lt hij)
  · intro e h
    simp [ValidateNATConfig, h]
  · intro h1 e h2
    simp [ValidateNATConfig, h1, h2]
  · intro h1 h2 e h3
    simp [ValidateNATConfig, h1, h2, h3]
  · intro h1 h2 h3 e h4
    simp [ValidateNATConfig, h1, h2, h3, h4]
  · intro h1 h2 h3 h4 h5 e h6
    simp [ValidateNATConfig, h1, h2, h3, h4, h5, h6]

/-- C5 witness: the missing-name error on a concrete config. -/
theorem validateNATConfig_completeness_witness :
    ValidateNATConfig (some
      { name := "", labels := none, natIP := "", portRange := none,
        snatRules := [], dnatRules := none, timeouts := none }) =
      some VErr.nameRequired :=
  (validateNATConfig_completeness_and_order _).1 rfl

/-! ## C6 — timeout minimums (corrected: zero fields pass) -/

/-- C6 counterexample: a config whose timeouts block is present with
tcpEstablished = 0 < 60 nevertheless passes validation, because each
timeout field is checked only when strictly positive. -/
theorem validateTimeouts_below_minimum_counterexample :
    ValidateNATConfig (some
      { name := "nat-nse", labels := none, natIP := "203.0.113.10",
        portRange := none, snatRules := [{ srcNet := "10.0.0.0/8" }],
        dnatRules := none,
        timeouts := some
          { tcpEstablished := 0, tcpTransitory := 30, udp := 30, icmp := 10 } })
      = none ∧ (0 : Nat) < 60 := by
  exact ⟨by decide, by decide⟩

/-- C6 amended: with the timeouts block present, validation fails exactly
when some field is nonzero and below its minimum (tcpEstablished < 60,
tcpTransitory < 30, udp < 30, icmp < 10); zero-valued fields (the Go
encoding of an absent entry, later defaulted) pass, and a block meeting
all four minimums passes; a nonzero below-minimum field makes the whole
config validation fail. -/
theorem validateTimeouts_minimums (t : NATTimeouts) (cfg : NATConfig) :
    (validateTimeouts (some t) = none ↔
      ((t.tcpEstablished = 0 ∨ 60 ≤ t.tcpEstablished) ∧
       (t.tcpTransitory = 0 ∨ 30 ≤ t.tcpTransitory) ∧
       (t.udp = 0 ∨ 30 ≤ t.udp) ∧
       (t.icmp = 0 ∨ 10 ≤ t.icmp))) ∧
    (cfg.timeouts = some t → (validateTimeouts (some t)).isSome →
      (ValidateNATConfig (some cfg)).isSome) := by
  constructor
  · simp only [validateTimeouts]
    constructor
    · intro h
      by_cases h1 : t.tcpEstablished > 0 ∧ t.tcpEstablished < 60
      · rw [if_pos h1] at h; exact absurd h (by simp)
      · rw [if_neg h1] at h
        by_cases h2 : t.tcpTransitory > 0 ∧ t.tcpTransitory < 30
        · rw [if_pos h2] at h; exact absurd h (by simp)
        · rw [if_neg h2] at h
          by_cases h3 : t.udp > 0 ∧ t.udp < 30
          · rw [if_pos h3] at h; exact absurd h (by simp)
          · rw [if_neg h3] at h
            by_cases h4 : t.icmp > 0 ∧ t.icmp < 10
            · rw [if_pos h4] at h; exact absurd h (by simp)
            · omega
    · intro h
      rw [if_neg (by omega), if_neg (by omega), if_neg (by omega), if_neg (by omega)]
  · intro hsome hbad
    cases hv : ValidateNATConfig (some cfg) with
    | some e => rfl
    | none =>
        obtain ⟨-, -, -, -, -, h6⟩ := validateNATConfig_none_parts cfg hv
        have hnone := h6 (by rw [hsome]; rfl)
        rw [hsome] at hnone
        rw [hnone] at hbad
        exact absurd hbad (by simp)

/-- C6 witness: a block meeting all four minimums passes the check. -/
theorem validateTimeouts_minimums_witness :
    validateTimeouts (some
      { tcpEstablished := 60, tcpTransitory := 30, udp := 30, icmp := 10 }) = none :=
  (validateTimeouts_minimums
    { tcpEstablished := 60, tcpTransitory := 30, udp := 30, icmp := 10 }
    { name := "n", labels := none, natIP := "203.0.113.10", portRange := none,
      snatRules := [], dnatRules := none, timeouts := none }).1.mpr (by decide)

/-! ## C7 — defaulting -/

/-- C7: applyDefaults (the defaulting pass LoadNATConfigFromFile runs on
the parsed document) turns an absent portRange into 1024–65535, an absent
timeouts block into 7440/240/300/60, fills only the zero (absent) fields
of a partially-specified portRange/timeouts block while preserving every
explicitly set (non-zero) value, initialises absent optional collections
(labels, dnatRules) to empty ones, and leaves all other fields
untouched. -/
theorem applyDefaults_spec (cfg : NATConfig) :
    (cfg.portRange = none →
      (applyDefaults cfg).portRange = some { start := 1024, «end» := 65535 }) ∧
    (cfg.timeouts = none →
      (applyDefaults cfg).timeouts =
        some { tcpEstablished := 7440, tcpTransitory := 240, udp := 300, icmp := 60 }) ∧
    (∀ t, cfg.timeouts = some t → ∃ t2, (applyDefaults cfg).timeouts = some t2 ∧
      (t.tcpEstablished ≠ 0 → t2.tcpEstablished = t.tcpEstablished) ∧
      (t.tcpEstablished = 0 → t2.tcpEstablished = 7440) ∧
      (t.tcpTransitory ≠ 0 → t2.tcpTransitory = t.tcpTransitory) ∧
      (t.tcpTransitory = 0 → t2.tcpTransitory = 240) ∧
      (t.udp ≠ 0 → t2.udp = t.udp) ∧ (t.udp = 0 → t2.udp = 300) ∧
      (t.icmp ≠ 0 → t2.icmp = t.icmp) ∧ (t.icmp = 0 → t2.icmp = 60)) ∧
    (∀ pr, cfg.portRange = some pr → ∃ pr2, (applyDefaults cfg).portRange = some pr2 ∧
      (pr.start ≠ 0 → pr2.start = pr.start) ∧ (pr.start = 0 → pr2.start = 1024) ∧
      (pr.«end» ≠ 0 → pr2.«end» = pr.«end») ∧ (pr.«end» = 0 → pr2.«end» = 65535)) ∧
    (cfg.dnatRules = none → (applyDefaults cfg).dnatRules = some []) ∧
    (∀ l, cfg.dnatRules = some l → (applyDefaults cfg).dnatRules = some l) ∧
    (cfg.labels = none → (applyDefaults cfg).labels = some []) ∧
    (∀ l, cfg.labels = some l → (applyDefaults cfg).labels = some l) ∧
    (applyDefaults cfg).name = cfg.name ∧
    (applyDefaults cfg).natIP = cfg.natIP ∧
    (applyDefaults cfg).snatRules = cfg.snatRules := by
  refine ⟨?_, ?_, ?_, ?_, ?_, ?_, ?_, ?_, ?_, ?_, ?_⟩
  · intro h; simp [applyDefaults, h, DefaultPortRange]
  · intro h; simp [applyDefaults, h, DefaultNATTimeouts]
  · intro t h
    refine ⟨{ tcpEstablished := if t.tcpEstablished = 0 then 7440 else t.tcpEstablished,
              tcpTransitory := if t.tcpTransitory = 0 then 240 else t.tcpTransitory,
              udp := if t.udp = 0 then 300 else t.udp,
              icmp := if t.icmp = 0 then 60 else t.icmp },
      by simp [applyDefaults, h, DefaultNATTimeouts], ?_, ?_, ?_, ?_, ?_, ?_, ?_, ?_⟩ <;>
      intro h2 <;> simp [h2]
  · intro pr h
    refine ⟨{ start := if pr.start = 0 then 1024 else pr.start,
              «end» := if pr.«end» = 0 then 65535 else pr.«end» },
      by simp [applyDefaults, h], ?_, ?_, ?_, ?_⟩ <;>
      intro h2 <;> simp [h2]
  · intro h; simp [applyDefaults, h]
  · intro l h; simp [applyDefaults, h]
  · intro h; simp [applyDefaults, h]
  · intro l h; simp [applyDefaults, h]
  · simp [applyDefaults]
  · simp [applyDefaults]
  · simp [applyDefaults]

/-- C7 witness: defaulting a concrete config with everything absent and a
partially-specified timeouts block on a second concrete config. -/
theorem applyDefaults_spec_witness :
    (applyDefaults
      { name := "nat-nse", labels := none, natIP := "203.0.113.10",
        portRange := none, snatRules := [{ srcNet := "10.0.0.0/8" }],
        dnatRules := none, timeouts := none }).portRange =
      some { start := 1024, «end» := 65535 } :=
  (applyDefaults_spec _).1 rfl

/-! ## C10 — ExtractInterfaceIndex totality (corrected: trailing junk) -/

/-- C10 counterexample: the parameter value "123abc" is not an unsigned
decimal integer (it has non-digit characters), yet ExtractInterfaceIndex
returns (123, nil error): `fmt.Sscanf` with `%d` scans the leading digit
run and ignores the rest of the input. -/
theorem extractInterfaceIndex_trailing_junk :
    ExtractInterfaceIndex (some
      { id := "c1",
        mechanism := some { parameters := some [("vpp_sw_if_index", "123abc")] } }) =
      (123, none) ∧
    "123abc".data.all Char.isDigit = false := by
  exact ⟨by decide, by decide⟩

/-- C10 amended: ExtractInterfaceIndex is total and returns (0, error)
when the connection is nil, its mechanism is nil, the parameters map is
nil, the key "vpp_sw_if_index" is absent, or its value does not start
(after optional blanks) with a decimal-digit run of value below 2^32;
otherwise it returns the value of that leading digit run (trailing
characters are ignored by the Sscanf-style scan) and no error. -/
theorem extractInterfaceIndex_total (id : String) :
    (ExtractInterfaceIndex none = (0, some (.msg "connection is nil"))) ∧
    (ExtractInterfaceIndex (some { id := id, mechanism := none }) =
      (0, some (.msg "connection mechanism is nil"))) ∧
    (ExtractInterfaceIndex (some { id := id, mechanism := some { parameters := none } }) =
      (0, some (.msg "mechanism parameters are nil"))) ∧
    (∀ ps, lookupParam ps "vpp_sw_if_index" = none →
      ExtractInterfaceIndex (some { id := id, mechanism := some { parameters := some ps } }) =
        (0, some (.msg "vpp_sw_if_index not found in mechanism parameters"))) ∧
    (∀ ps s, lookupParam ps "vpp_sw_if_index" = some s → sscanfUint32 s = none →
      ExtractInterfaceIndex (some { id := id, mechanism := some { parameters := some ps } }) =
        (0, some (.wrap ("failed to parse vpp_sw_if_index: " ++ s) (.msg "scan error")))) ∧
    (∀ ps s v, lookupParam ps "vpp_sw_if_index" = some s → sscanfUint32 s = some v →
      ExtractInterfaceIndex (some { id := id, mechanism := some { parameters := some ps } }) =
        (v, none)) ∧
    (∀ s v, sscanfUint32 s = some v → v < 2 ^ 32) := by
  refine ⟨rfl, rfl, rfl, ?_, ?_, ?_, ?_⟩
  · intro ps h; simp [ExtractInterfaceIndex, h]
  · intro ps s h1 h2; simp [ExtractInterfaceIndex, h1, h2]
  · intro ps s v h1 h2; simp [ExtractInterfaceIndex, h1, h2]
  · intro s v h
    simp only [sscanfUint32] at h
    by_cases h1 : (s.data.dropWhile fun c => c = ' ' ∨ c = '\t').takeWhile Char.isDigit |>.isEmpty
    · rw [if_pos h1] at h; exact absurd h (by simp)
    · rw [if_neg h1] at h
      by_cases h2 : digitsToNat ((s.data.dropWhile fun c => c = ' ' ∨ c = '\t').takeWhile Char.isDigit) < 2 ^ 32
      · rw [if_pos h2] at h
        cases h
        exact h2
      · rw [if_neg h2] at h; exact absurd h (by simp)

/-- C10 witness: a clean decimal value parses to its index. -/
theorem extractInterfaceIndex_total_witness :
    ExtractInterfaceIndex (some
      { id := "c1", mechanism := some { parameters := some [("vpp_sw_if_index", "42")] } }) =
      (42, none) :=
  (extractInterfaceIndex_total "c1").2.2.2.2.2.1 [("vpp_sw_if_index", "42")] "42" 42
    (by decide) (by decide)

/-! ## Helper lemmas about the Configured-Connection Set and cleanup -/

/-- Storing an id puts it in the set. -/
theorem ConnSet.mem_store (s : ConnSet) (id : String) : id ∈ s.store id := by
  unfold ConnSet.store
  split
  · assumption
  · exact List.mem_cons_self _ _

/-- Storing keeps earlier members. -/
theorem ConnSet.mem_store_of_mem (s : ConnSet) (id id2 : String) (h : id2 ∈ s) :
    id2 ∈ s.store id := by
  unfold ConnSet.store
  split
  · exact h
  · exact List.mem_cons_of_mem _ h

/-- Deleting an id removes it. -/
theorem ConnSet.not_mem_del (s : ConnSet) (id : String) : id ∉ s.del id := by
  unfold ConnSet.del
  intro h
  have := List.of_mem_filter h
  simp at this

/-- Deletion is a no-op when the id is absent. -/
theorem ConnSet.del_of_not_mem (s : ConnSet) (id : String) (h : id ∉ s) : s.del id = s := by
  unfold ConnSet.del
  apply List.filter_eq_self.mpr
  intro a ha
  simp only [decide_eq_true_eq]
  exact fun heq => h (heq ▸ ha)

/-- Deletion never adds members. -/
theorem ConnSet.mem_of_mem_del (s : ConnSet) (id id2 : String) (h : id2 ∈ s.del id) :
    id2 ∈ s := by
  unfold ConnSet.del at h
  exact List.mem_of_mem_filter h

/-- cleanupOnError in closed form: one Close call, the set loses the id,
and the error is the original one, wrapped only if the Close failed. -/
theorem cleanupOnError_eq (env : ChainEnv) (conns : ConnSet) (connId : String) (orig : GoErr) :
    cleanupOnError env conns connId orig =
      (cleanupWrapErr env orig, conns.del connId, [Event.nextClose connId]) := by
  unfold cleanupOnError natServerClose cleanupWrapErr
  cases env.nextCloseErr <;> rfl

/-! ## Scenario equations for natServer.Request -/

/-- Downstream failure: the error is returned unchanged, nothing else
happens. -/
theorem natServerRequest_nextFail (env : ChainEnv) (cfg : NATConfig) (conns : ConnSet)
    (e : GoErr) (hnext : env.nextRequest = .error e) :
    natServerRequest env cfg conns = ⟨.error e, conns, [Event.nextRequest]⟩ := by
  simp only [natServerRequest, hnext]

/-- Configured-Connection Set hit: short-circuit with the connection. -/
theorem natServerRequest_hit (env : ChainEnv) (cfg : NATConfig) (conns : ConnSet)
    (conn : Connection) (hnext : env.nextRequest = .ok conn) (hmem : conn.id ∈ conns) :
    natServerRequest env cfg conns = ⟨.ok conn, conns, [Event.nextRequest]⟩ := by
  simp only [natServerRequest, hnext]
  rw [if_pos hmem]

/-- Handle-extraction failure: one cleanup Close, the wrapped error. -/
theorem natServerRequest_extractFail (env : ChainEnv) (cfg : NATConfig) (conns : ConnSet)
    (conn : Connection) (n : Nat) (e : GoErr)
    (hnext : env.nextRequest = .ok conn) (hmem : conn.id ∉ conns)
    (hx : ExtractInterfaceIndex (some conn) = (n, some e)) :
    natServerRequest env cfg conns =
      ⟨.error (cleanupWrapErr env (GoErr.wrap
          (if env.isClient then "failed to extract client side interface index"
           else "failed to extract server side interface index") e)),
        conns.del conn.id, [Event.nextRequest, Event.nextClose conn.id]⟩ := by
  simp only [natServerRequest, hnext]
  rw [if_neg hmem]
  simp only [natServerConfigure, hx]
  simp [cleanupOnError_eq]

/-- Server side, inside-marking failure: one cleanup Close. -/
theorem natServerRequest_insideFail (env : ChainEnv) (cfg : NATConfig) (conns : ConnSet)
    (conn : Connection) (idx : Nat) (e : GoErr)
    (hnext : env.nextRequest = .ok conn) (hmem : conn.id ∉ conns)
    (hclient : env.isClient = false)
    (hx : ExtractInterfaceIndex (some conn) = (idx, none)) (hidx : idx ≠ 0)
    (hins : ConfigureInsideInterface env.vpp idx = some e) :
    natServerRequest env cfg conns =
      ⟨.error (cleanupWrapErr env
          (GoErr.wrap ("failed to configure inside interface " ++ toString idx) e)),
        conns.del conn.id,
        [Event.nextRequest, Event.markInside idx, Event.nextClose conn.id]⟩ := by
  simp only [natServerRequest, hnext]
  rw [if_neg hmem]
  simp only [natServerConfigure, hx]
  simp only [hclient, Bool.false_eq_true, if_false, if_pos hidx, hins, cleanupOnError_eq]
  rfl

/-- Server side, pool-addition failure: one cleanup Close. -/
theorem natServerRequest_poolFail (env : ChainEnv) (cfg : NATConfig) (conns : ConnSet)
    (conn : Connection) (idx : Nat) (e : GoErr)
    (hnext : env.nextRequest = .ok conn) (hmem : conn.id ∉ conns)
    (hclient : env.isClient = false)
    (hx : ExtractInterfaceIndex (some conn) = (idx, none)) (hidx : idx ≠ 0)
    (hins : ConfigureInsideInterface env.vpp idx = none)
    (hpool : AddNATAddressPool env.vpp cfg.natIP = some e) :
    natServerRequest env cfg conns =
      ⟨.error (cleanupWrapErr env
          (GoErr.wrap ("failed to add NAT address pool " ++ cfg.natIP) e)),
        conns.del conn.id,
        [Event.nextRequest, Event.markInside idx, Event.addPool cfg.natIP,
          Event.nextClose conn.id]⟩ := by
  simp only [natServerRequest, hnext]
  rw [if_neg hmem]
  simp only [natServerConfigure, hx]
  simp only [hclient, Bool.false_eq_true, if_false, if_pos hidx, hins, hpool, cleanupOnError_eq]
  rfl

/-- Server side, all fatal steps succeed: the connection is returned, the
id stored, and the trace holds the full set of dataplane calls (with the
port-range call appended when a range is configured, regardless of its
outcome). -/
theorem natServerRequest_serverOk (env : ChainEnv) (cfg : NATConfig) (conns : ConnSet)
    (conn : Connection) (idx : Nat)
    (hnext : env.nextRequest = .ok conn) (hmem : conn.id ∉ conns)
    (hclient : env.isClient = false)
    (hx : ExtractInterfaceIndex (some conn) = (idx, none)) (hidx : idx ≠ 0)
    (hins : ConfigureInsideInterface env.vpp idx = none)
    (hpool : AddNATAddressPool env.vpp cfg.natIP = none) :
    natServerRequest env cfg conns =
      ⟨.ok conn, conns.store conn.id,
        Event.nextRequest :: Event.markInside idx :: Event.addPool cfg.natIP ::
          (match cfg.portRange with
           | some pr => [Event.cfgPortRange pr.start pr.«end»]
           | none => [])⟩ := by
  simp only [natServerRequest, hnext]
  rw [if_neg hmem]
  simp only [natServerConfigure, hx]
  simp only [hclient, Bool.false_eq_true, if_false, if_pos hidx, hins, hpool]
  cases cfg.portRange <;> rfl

/-- Client side, outside-marking failure: one cleanup Close. -/
theorem natServerRequest_outsideFail (env : ChainEnv) (cfg : NATConfig) (conns : ConnSet)
    (conn : Connection) (idx : Nat) (e : GoErr)
    (hnext : env.nextRequest = .ok conn) (hmem : conn.id ∉ conns)
    (hclient : env.isClient = true)
    (hx : ExtractInterfaceIndex (some conn) = (idx, none)) (hidx : idx ≠ 0)
    (houts : ConfigureOutsideInterface env.vpp idx = some e) :
    natServerRequest env cfg conns =
      ⟨.error (cleanupWrapErr env
          (GoErr.wrap ("failed to configure outside interface " ++ toString idx) e)),
        conns.del conn.id,
        [Event.nextRequest, Event.markOutside idx, Event.nextClose conn.id]⟩ := by
  simp only [natServerRequest, hnext]
  rw [if_neg hmem]
  simp only [natServerConfigure, hx]
  simp only [hclient, if_true, if_pos hidx, houts, cleanupOnError_eq]

/-- Client side, outside marking succeeds: the id is stored. -/
theorem natServerRequest_clientOk (env : ChainEnv) (cfg : NATConfig) (conns : ConnSet)
    (conn : Connection) (idx : Nat)
    (hnext : env.nextRequest = .ok conn) (hmem : conn.id ∉ conns)
    (hclient : env.isClient = true)
    (hx : ExtractInterfaceIndex (some conn) = (idx, none)) (hidx : idx ≠ 0)
    (houts : ConfigureOutsideInterface env.vpp idx = none) :
    natServerRequest env cfg conns =
      ⟨.ok conn, conns.store conn.id, [Event.nextRequest, Event.markOutside idx]⟩ := by
  simp only [natServerRequest, hnext]
  rw [if_neg hmem]
  simp only [natServerConfigure, hx]
  simp only [hclient, if_true, if_pos hidx, houts]

/-- On any outcome, natServerConfigure either succeeds with the
connection and stores its id, or fails having deleted its id. -/
theorem natServerConfigure_cases (env : ChainEnv) (cfg : NATConfig) (conns : ConnSet)
    (conn : Connection) :
    ((natServerConfigure env cfg conns conn).result = .ok conn ∧
      (natServerConfigure env cfg conns conn).conns = conns.store conn.id) ∨
    ((∃ e, (natServerConfigure env cfg conns conn).result = .error e) ∧
      (natServerConfigure env cfg conns conn).conns = conns.del conn.id) := by
  unfold natServerConfigure
  cases hx : ExtractInterfaceIndex (some conn) with
  | mk n oe =>
      cases oe with
      | some e => right; simp [cleanupOnError_eq]
      | none =>
          cases hc : env.isClient with
          | true =>
              simp only [if_true]
              by_cases hidx : n ≠ 0
              · rw [if_pos hidx]
                cases houts : ConfigureOutsideInterface env.vpp n with
                | some e => right; simp [cleanupOnError_eq]
                | none => left; simp
              · rw [if_neg hidx]
                left; simp
          | false =>
              simp only [Bool.false_eq_true, if_false]
              cases hins : (if n ≠ 0
                  then (ConfigureInsideInterface env.vpp n, [Event.markInside n])
                  else ((none : Option GoErr), ([] : List Event))) with
              | mk oi evs =>
                  cases oi with
                  | some e => right; simp [cleanupOnError_eq]
                  | none =>
                      cases hpool : AddNATAddressPool env.vpp cfg.natIP with
                      | some e => right; simp [cleanupOnError_eq]
                      | none =>
                          left
                          cases cfg.portRange <;> simp

/-- Miss in the Configured-Connection Set: Request is the downstream
forward followed by the configuration steps. -/
theorem natServerRequest_miss (env : ChainEnv) (cfg : NATConfig) (conns : ConnSet)
    (conn : Connection) (hnext : env.nextRequest = .ok conn) (hmem : conn.id ∉ conns) :
    natServerRequest env cfg conns =
      ⟨(natServerConfigure env cfg conns conn).result,
        (natServerConfigure env cfg conns conn).conns,
        Event.nextRequest :: (natServerConfigure env cfg conns conn).events⟩ := by
  simp only [natServerRequest, hnext]
  rw [if_neg hmem]

/-- The downstream forward is not a dataplane call. -/
theorem natCalls_append_nextRequest (evs : List Event) :
    natCalls (evs ++ [Event.nextRequest]) = natCalls evs := by
  simp [natCalls, List.filter_append, Event.isNatCall]

/-! ## Shared concrete data for witnesses and counterexamples -/

/-- An engine that accepts every control-plane call. -/
def vppAllOk : VppEnv :=
  { insideRetval := fun _ => 0, outsideRetval := fun _ => 0, poolRetval := fun _ => 0 }

/-- The sample NAT policy from §8 of the design document. -/
def sampleConfig : NATConfig :=
  { name := "nat-nse", labels := none, natIP := "203.0.113.10",
    portRange := none, snatRules := [{ srcNet := "10.0.0.0/8" }],
    dnatRules := none, timeouts := none }

/-- A connection "c1" whose mechanism carries a parsable interface
index. -/
def sampleConn : Connection :=
  { id := "c1", mechanism := some { parameters := some [("vpp_sw_if_index", "5")] } }

/-- A fully successful environment for the server-side stage. -/
def envAllOk : ChainEnv :=
  { vpp := vppAllOk, nextRequest := .ok sampleConn, nextCloseErr := none,
    ifindexLoad := some 5, isClient := false }

/-! ## C1 — idempotence of Request -/

/-- C1: for a connection id already recorded in the stage's
Configured-Connection Set, Request short-circuits: the server variant
returns the connection with only the downstream forward and no dataplane
NAT call; consequently two sequential server Requests whose first
succeeds make dataplane calls only in the first; the client variant
likewise makes no dataplane call on a hit. -/
theorem natRequest_idempotent (env : ChainEnv) (cfg : NATConfig) (conns : ConnSet)
    (conn : Connection) (reqConn : Option Connection)
    (hnext : env.nextRequest = .ok conn) :
    (conn.id ∈ conns →
      natServerRequest env cfg conns = ⟨.ok conn, conns, [Event.nextRequest]⟩ ∧
      natCalls [Event.nextRequest] = []) ∧
    ((natServerRequest env cfg conns).result = .ok conn →
      natServerRequest env cfg (natServerRequest env cfg conns).conns =
        ⟨.ok conn, (natServerRequest env cfg conns).conns, [Event.nextRequest]⟩ ∧
      natCalls ((natServerRequest env cfg conns).events ++ [Event.nextRequest]) =
        natCalls (natServerRequest env cfg conns).events) ∧
    ((reqConn.map Connection.id).getD "" ∈ conns →
      natClientRequest env cfg conns reqConn =
        ⟨env.nextRequest, conns, [Event.nextRequest]⟩ ∧
      natCalls [Event.nextRequest] = []) := by
  refine ⟨?_, ?_, ?_⟩
  · intro hmem
    exact ⟨natServerRequest_hit env cfg conns conn hnext hmem,
      by simp [natCalls, Event.isNatCall]⟩
  · intro hres
    have hmem2 : conn.id ∈ (natServerRequest env cfg conns).conns := by
      by_cases hmem : conn.id ∈ conns
      · rw [natServerRequest_hit env cfg conns conn hnext hmem]
        exact hmem
      · rw [natServerRequest_miss env cfg conns conn hnext hmem] at hres ⊢
        rcases natServerConfigure_cases env cfg conns conn with ⟨-, hconns⟩ | ⟨⟨e, he⟩, -⟩
        · simp only [hconns]
          exact ConnSet.mem_store conns conn.id
        · simp only at hres
          rw [he] at hres
          exact absurd hres (by simp)
    exact ⟨natServerRequest_hit env cfg _ conn hnext hmem2,
      natCalls_append_nextRequest _⟩
  · intro hmem
    constructor
    · simp only [natClientRequest]
      rw [if_pos hmem]
    · simp [natCalls, Event.isNatCall]

/-- C1 witness: a hit on "c1" short-circuits with no dataplane call. -/
theorem natRequest_idempotent_witness :
    natServerRequest envAllOk sampleConfig ["c1"] =
      ⟨.ok sampleConn, ["c1"], [Event.nextRequest]⟩ ∧
    natCalls [Event.nextRequest] = [] :=
  (natRequest_idempotent envAllOk sampleConfig ["c1"] sampleConn none rfl).1 (by decide)

/-! ## C2 — synchronous cleanup on fatal configuration failure -/

/-- C2: in the dual-role server stage, a fatal failure after the
downstream chain opened the connection — handle extraction, inside
marking, outside marking, or pool addition — issues exactly one Close on
that connection before returning, and the returned error is the original
failure, wrapped with the cleanup outcome only when the Close itself
fails. -/
theorem natServer_failure_cleanup (env : ChainEnv) (cfg : NATConfig) (conns : ConnSet)
    (conn : Connection)
    (hnext : env.nextRequest = .ok conn) (hmem : conn.id ∉ conns) :
    (∀ n e, ExtractInterfaceIndex (some conn) = (n, some e) →
      natServerRequest env cfg conns =
        ⟨.error (cleanupWrapErr env (GoErr.wrap
            (if env.isClient then "failed to extract client side interface index"
             else "failed to extract server side interface index") e)),
          conns.del conn.id, [Event.nextRequest, Event.nextClose conn.id]⟩ ∧
      closeCount [Event.nextRequest, Event.nextClose conn.id] conn.id = 1) ∧
    (∀ idx e, env.isClient = false → ExtractInterfaceIndex (some conn) = (idx, none) →
      idx ≠ 0 → ConfigureInsideInterface env.vpp idx = some e →
      natServerRequest env cfg conns =
        ⟨.error (cleanupWrapErr env
            (GoErr.wrap ("failed to configure inside interface " ++ toString idx) e)),
          conns.del conn.id,
          [Event.nextRequest, Event.markInside idx, Event.nextClose conn.id]⟩ ∧
      closeCount [Event.nextRequest, Event.markInside idx, Event.nextClose conn.id]
        conn.id = 1) ∧
    (∀ idx e, env.isClient = true → ExtractInterfaceIndex (some conn) = (idx, none) →
      idx ≠ 0 → ConfigureOutsideInterface env.vpp idx = some e →
      natServerRequest env cfg conns =
        ⟨.error (cleanupWrapErr env
            (GoErr.wrap ("failed to configure outside interface " ++ toString idx) e)),
          conns.del conn.id,
          [Event.nextRequest, Event.markOutside idx, Event.nextClose conn.id]⟩ ∧
      closeCount [Event.nextRequest, Event.markOutside idx, Event.nextClose conn.id]
        conn.id = 1) ∧
    (∀ idx e, env.isClient = false → ExtractInterfaceIndex (some conn) = (idx, none) →
      idx ≠ 0 → ConfigureInsideInterface env.vpp idx = none →
      AddNATAddressPool env.vpp cfg.natIP = some e →
      natServerRequest env cfg conns =
        ⟨.error (cleanupWrapErr env
            (GoErr.wrap ("failed to add NAT address pool " ++ cfg.natIP) e)),
          conns.del conn.id,
          [Event.nextRequest, Event.markInside idx, Event.addPool cfg.natIP,
            Event.nextClose conn.id]⟩ ∧
      closeCount [Event.nextRequest, Event.markInside idx, Event.addPool cfg.natIP,
        Event.nextClose conn.id] conn.id = 1) ∧
    (∀ orig, cleanupWrapErr env orig = orig ∨
      ∃ m, cleanupWrapErr env orig = GoErr.wrap m orig) := by
  refine ⟨?_, ?_, ?_, ?_, ?_⟩
  · intro n e hx
    exact ⟨natServerRequest_extractFail env cfg conns conn n e hnext hmem hx,
      by simp [closeCount]⟩
  · intro idx e hc hx hidx hins
    exact ⟨natServerRequest_insideFail env cfg conns conn idx e hnext hmem hc hx hidx hins,
      by simp [closeCount]⟩
  · intro idx e hc hx hidx houts
    exact ⟨natServerRequest_outsideFail env cfg conns conn idx e hnext hmem hc hx hidx houts,
      by simp [closeCount]⟩
  · intro idx e hc hx hidx hins hpool
    exact ⟨natServerRequest_poolFail env cfg conns conn idx e hnext hmem hc hx hidx hins hpool,
      by simp [closeCount]⟩
  · intro orig
    unfold cleanupWrapErr
    cases env.nextCloseErr with
    | none => exact Or.inl rfl
    | some ce => exact Or.inr ⟨_, rfl⟩

/-- An environment in which the engine rejects the outside marking. -/
def envOutsideFail : ChainEnv :=
  { vpp := { insideRetval := fun _ => 0, outsideRetval := fun _ => 1, poolRetval := fun _ => 0 },
    nextRequest := .ok sampleConn, nextCloseErr := none,
    ifindexLoad := some 5, isClient := true }

/-- C2 witness: the forced outside-marking failure on "c1" triggers
exactly one Close and returns the original error. -/
theorem natServer_failure_cleanup_witness :
    natServerRequest envOutsideFail sampleConfig [] =
      ⟨.error (cleanupWrapErr envOutsideFail
          (GoErr.wrap ("failed to configure outside interface " ++ toString 5)
            (.msg ("VPP returned error code when configuring outside interface " ++
              toString 5)))),
        ConnSet.del [] sampleConn.id,
        [Event.nextRequest, Event.markOutside 5, Event.nextClose sampleConn.id]⟩ ∧
    closeCount [Event.nextRequest, Event.markOutside 5, Event.nextClose sampleConn.id]
      sampleConn.id = 1 :=
  (natServer_failure_cleanup envOutsideFail sampleConfig [] sampleConn rfl
      (List.not_mem_nil _)).2.2.1 5
    (.msg ("VPP returned error code when configuring outside interface " ++ toString 5))
    rfl (by decide) (by decide) (by decide)

/-! ## C3 — no residual entry on failure (corrected) -/

/-- C3 counterexample: a client-variant Request whose own configuration
steps all succeed but whose downstream forward fails returns the error
with "c1" newly stored in the Configured-Connection Set — the store
happens before the forward in natClient.Request. -/
theorem natClient_residual_entry_counterexample :
    (natClientRequest
      { vpp := vppAllOk, nextRequest := .error (.msg "connection refused"),
        nextCloseErr := none, ifindexLoad := some 7, isClient := true }
      sampleConfig [] (some { id := "c1", mechanism := none })).result =
        .error (.msg "connection refused") ∧
    "c1" ∈ (natClientRequest
      { vpp := vppAllOk, nextRequest := .error (.msg "connection refused"),
        nextCloseErr := none, ifindexLoad := some 7, isClient := true }
      sampleConfig [] (some { id := "c1", mechanism := none })).conns ∧
    "c1" ∉ ([] : ConnSet) := by
  refine ⟨rfl, by decide, by decide⟩

/-- C3 amended: in the server variant any Request that returns an error
leaves no new entry in the Configured-Connection Set; in the client
variant the same holds for every error raised by the stage's own
configuration steps (metadata handle load, outside marking, pool
addition) — but a client Request whose configuration succeeded and whose
downstream forward then failed keeps the id stored (see the
counterexample). -/
theorem natRequest_no_residual_entry (env : ChainEnv) (cfg : NATConfig) (conns : ConnSet) :
    (∀ e, (natServerRequest env cfg conns).result = .error e →
      ∀ id, id ∈ (natServerRequest env cfg conns).conns → id ∈ conns) ∧
    (∀ reqConn, env.ifindexLoad = none →
      (natClientRequest env cfg conns reqConn).conns = conns) ∧
    (∀ reqConn idx e, env.ifindexLoad = some idx →
      ConfigureOutsideInterface env.vpp idx = some e →
      (natClientRequest env cfg conns reqConn).conns = conns) ∧
    (∀ reqConn idx e, env.ifindexLoad = some idx →
      ConfigureOutsideInterface env.vpp idx = none →
      AddNATAddressPool env.vpp cfg.natIP = some e →
      (natClientRequest env cfg conns reqConn).conns = conns) := by
  refine ⟨?_, ?_, ?_, ?_⟩
  · intro e hres id hid
    cases hnext : env.nextRequest with
    | error e2 =>
        rw [natServerRequest_nextFail env cfg conns e2 hnext] at hid
        exact hid
    | ok conn =>
        by_cases hmem : conn.id ∈ conns
        · rw [natServerRequest_hit env cfg conns conn hnext hmem] at hid
          exact hid
        · rw [natServerRequest_miss env cfg conns conn hnext hmem] at hres hid
          simp only at hres hid
          rcases natServerConfigure_cases env cfg conns conn with ⟨hok, -⟩ | ⟨-, hconns⟩
          · rw [hok] at hres
            exact absurd hres (by simp)
          · rw [hconns] at hid
            exact ConnSet.mem_of_mem_del conns conn.id id hid
  · intro reqConn hload
    simp only [natClientRequest, hload]
    split
    · rfl
    · rfl
  · intro reqConn idx e hload houts
    simp only [natClientRequest, hload, houts]
    split
    · rfl
    · rfl
  · intro reqConn idx e hload houts hpool
    simp only [natClientRequest, hload, houts, hpool]
    split
    · rfl
    · rfl

/-- C3 witness: a server-side downstream failure leaves the set empty. -/
theorem natRequest_no_residual_entry_witness :
    ∀ id, id ∈ (natServerRequest
      { vpp := vppAllOk, nextRequest := .error (.msg "connection refused"),
        nextCloseErr := none, ifindexLoad := none, isClient := false }
      sampleConfig []).conns → id ∈ ([] : ConnSet) :=
  (natRequest_no_residual_entry
    { vpp := vppAllOk, nextRequest := .error (.msg "connection refused"),
      nextCloseErr := none, ifindexLoad := none, isClient := false }
    sampleConfig []).1 (.msg "connection refused") rfl

/-! ## C8 — Close frame and close-then-retry -/

/-- C8: Close (server and client variants) removes the connection id from
the Configured-Connection Set (a no-op when absent), forwards the close
downstream, and makes no dataplane de-configuration call; a subsequent
server-side Request for the same id then re-executes the full
configuration, with a fresh set of dataplane calls. -/
theorem natClose_frame (env : ChainEnv) (cfg : NATConfig) (conns : ConnSet)
    (id : String) (conn : Connection) (idx : Nat) :
    (natServerClose env conns id =
      (env.nextCloseErr, conns.del id, [Event.nextClose id])) ∧
    (id ∉ conns.del id) ∧
    (id ∉ conns → conns.del id = conns) ∧
    (natCalls [Event.nextClose id] = []) ∧
    (natClientClose env conns id =
      (env.nextCloseErr, conns.del id, [Event.nextClose id])) ∧
    (env.nextRequest = .ok conn → conn.id = id → env.isClient = false →
      ExtractInterfaceIndex (some conn) = (idx, none) → idx ≠ 0 →
      ConfigureInsideInterface env.vpp idx = none →
      AddNATAddressPool env.vpp cfg.natIP = none → cfg.portRange = none →
      natServerRequest env cfg (conns.del id) =
        ⟨.ok conn, (conns.del id).store conn.id,
          [Event.nextRequest, Event.markInside idx, Event.addPool cfg.natIP]⟩ ∧
      natCalls [Event.nextRequest, Event.markInside idx, Event.addPool cfg.natIP] =
        [Event.markInside idx, Event.addPool cfg.natIP]) := by
  refine ⟨rfl, ConnSet.not_mem_del conns id, ConnSet.del_of_not_mem conns id,
    by simp [natCalls, Event.isNatCall], rfl, ?_⟩
  intro hnext hid hclient hx hidx hins hpool hpr
  constructor
  · have hmem : conn.id ∉ conns.del id := hid ▸ ConnSet.not_mem_del conns id
    have := natServerRequest_serverOk env cfg (conns.del id) conn idx hnext hmem
      hclient hx hidx hins hpool
    rw [hpr] at this
    exact this
  · simp [natCalls, Event.isNatCall]

/-- C8 witness: closing "c1" then re-requesting re-runs the inside
marking and the pool addition. -/
theorem natClose_frame_witness :
    natServerClose envAllOk ["c1"] "c1" =
      ((none : Option GoErr), ConnSet.del ["c1"] "c1", [Event.nextClose "c1"]) ∧
    natServerRequest envAllOk sampleConfig (ConnSet.del ["c1"] "c1") =
      ⟨.ok sampleConn, (ConnSet.del ["c1"] "c1").store sampleConn.id,
        [Event.nextRequest, Event.markInside 5, Event.addPool sampleConfig.natIP]⟩ :=
  ⟨(natClose_frame envAllOk sampleConfig ["c1"] "c1" sampleConn 5).1,
    (((natClose_frame envAllOk sampleConfig ["c1"] "c1" sampleConn 5).2.2.2.2.2
      rfl rfl rfl (by decide) (by decide) rfl rfl rfl).1)⟩

/-! ## C9 — fatality classification of dataplane errors -/

/-- C9: in both stage variants, an error from inside marking, outside
marking, or pool addition aborts the Request — the error is returned to
the caller and the id is not recorded — while ConfigurePortRange never
aborts: whatever its outcome (and it can fail, e.g. on port 0), the
Request still succeeds and records the id when all other steps succeed.
In the client variant the outside-marking and pool-addition errors are
returned directly with the Configured-Connection Set unchanged (the only
port-range call sits on the server side). -/
theorem natRequest_fatality (env : ChainEnv) (cfg : NATConfig) (conns : ConnSet)
    (conn : Connection) (idx : Nat) (reqConn : Option Connection) :
    (∀ e, env.nextRequest = .ok conn → conn.id ∉ conns → env.isClient = false →
      ExtractInterfaceIndex (some conn) = (idx, none) → idx ≠ 0 →
      ConfigureInsideInterface env.vpp idx = some e →
      (∃ e2, (natServerRequest env cfg conns).result = .error e2) ∧
      conn.id ∉ (natServerRequest env cfg conns).conns) ∧
    (∀ e, env.nextRequest = .ok conn → conn.id ∉ conns → env.isClient = true →
      ExtractInterfaceIndex (some conn) = (idx, none) → idx ≠ 0 →
      ConfigureOutsideInterface env.vpp idx = some e →
      (∃ e2, (natServerRequest env cfg conns).result = .error e2) ∧
      conn.id ∉ (natServerRequest env cfg conns).conns) ∧
    (∀ e, env.nextRequest = .ok conn → conn.id ∉ conns → env.isClient = false →
      ExtractInterfaceIndex (some conn) = (idx, none) → idx ≠ 0 →
      ConfigureInsideInterface env.vpp idx = none →
      AddNATAddressPool env.vpp cfg.natIP = some e →
      (∃ e2, (natServerRequest env cfg conns).result = .error e2) ∧
      conn.id ∉ (natServerRequest env cfg conns).conns) ∧
    (∀ pr, env.nextRequest = .ok conn → conn.id ∉ conns → env.isClient = false →
      ExtractInterfaceIndex (some conn) = (idx, none) → idx ≠ 0 →
      ConfigureInsideInterface env.vpp idx = none →
      AddNATAddressPool env.vpp cfg.natIP = none → cfg.portRange = some pr →
      natServerRequest env cfg conns =
        ⟨.ok conn, conns.store conn.id,
          [Event.nextRequest, Event.markInside idx, Event.addPool cfg.natIP,
            Event.cfgPortRange pr.start pr.«end»]⟩) ∧
    (ConfigurePortRange 0 5 = some (.msg ("invalid portStart: " ++ toString 0))) ∧
    (∀ idx2 e, (reqConn.map Connection.id).getD "" ∉ conns →
      env.ifindexLoad = some idx2 →
      ConfigureOutsideInterface env.vpp idx2 = some e →
      natClientRequest env cfg conns reqConn =
        ⟨.error (.wrap ("failed to configure NAT outside interface " ++ toString idx2) e),
          conns, [Event.markOutside idx2]⟩) ∧
    (∀ idx2 e, (reqConn.map Connection.id).getD "" ∉ conns →
      env.ifindexLoad = some idx2 →
      ConfigureOutsideInterface env.vpp idx2 = none →
      AddNATAddressPool env.vpp cfg.natIP = some e →
      natClientRequest env cfg conns reqConn =
        ⟨.error (.wrap ("failed to add NAT address pool " ++ cfg.natIP) e),
          conns, [Event.markOutside idx2, Event.addPool cfg.natIP]⟩) := by
  refine ⟨?_, ?_, ?_, ?_, rfl, ?_, ?_⟩
  · intro e hnext hmem hc hx hidx hins
    rw [natServerRequest_insideFail env cfg conns conn idx e hnext hmem hc hx hidx hins]
    exact ⟨⟨_, rfl⟩, ConnSet.not_mem_del conns conn.id⟩
  · intro e hnext hmem hc hx hidx houts
    rw [natServerRequest_outsideFail env cfg conns conn idx e hnext hmem hc hx hidx houts]
    exact ⟨⟨_, rfl⟩, ConnSet.not_mem_del conns conn.id⟩
  · intro e hnext hmem hc hx hidx hins hpool
    rw [natServerRequest_poolFail env cfg conns conn idx e hnext hmem hc hx hidx hins hpool]
    exact ⟨⟨_, rfl⟩, ConnSet.not_mem_del conns conn.id⟩
  · intro pr hnext hmem hc hx hidx hins hpool hpr
    have := natServerRequest_serverOk env cfg conns conn idx hnext hmem hc hx hidx hins hpool
    rw [hpr] at this
    exact this
  · intro idx2 e hmem2 hload houts
    simp only [natClientRequest, hload, houts]
    rw [if_neg hmem2]
  · intro idx2 e hmem2 hload houts hpool
    simp only [natClientRequest, hload, houts, hpool]
    rw [if_neg hmem2]

/-- A config like the sample but with an invalid port range 0–5, on which
ConfigurePortRange errors. -/
def badPortRangeConfig : NATConfig :=
  { name := "nat-nse", labels := none, natIP := "203.0.113.10",
    portRange := some { start := 0, «end» := 5 },
    snatRules := [{ srcNet := "10.0.0.0/8" }], dnatRules := none, timeouts := none }

/-- C9 witness: with the port-range call erroring (range 0–5), the
server-side Request still succeeds and stores "c1"; a client-side
Request whose outside marking is rejected aborts with the wrapped error
and an unchanged set. -/
theorem natRequest_fatality_witness :
    natServerRequest envAllOk badPortRangeConfig [] =
      ⟨.ok sampleConn, ConnSet.store [] sampleConn.id,
        [Event.nextRequest, Event.markInside 5, Event.addPool badPortRangeConfig.natIP,
          Event.cfgPortRange 0 5]⟩ ∧
    natClientRequest envOutsideFail sampleConfig [] (some sampleConn) =
      ⟨.error (.wrap ("failed to configure NAT outside interface " ++ toString 5)
          (.msg ("VPP returned error code when configuring outside interface " ++ toString 5))),
        [], [Event.markOutside 5]⟩ ∧
    ConfigurePortRange 0 5 = some (.msg ("invalid portStart: " ++ toString 0)) :=
  ⟨(natRequest_fatality envAllOk badPortRangeConfig [] sampleConn 5 none).2.2.2.1
      { start := 0, «end» := 5 } rfl (List.not_mem_nil _) rfl (by decide) (by decide)
      rfl rfl rfl,
    (natRequest_fatality envOutsideFail sampleConfig [] sampleConn 5
        (some sampleConn)).2.2.2.2.2.1 5
      (.msg ("VPP returned error code when configuring outside interface " ++ toString 5))
      (by decide) rfl rfl,
    (natRequest_fatality envAllOk badPortRangeConfig [] sampleConn 5 none).2.2.2.2.1⟩

end NatNse
